import Mathlib

/-!
# ShaderPipeline

A shallow embedding of `src/shader_pipeline.cpp`.

The component is sequential glue code over three external collaborators: the
graphics driver (OpenGL), the logging sink (spdlog, channel "graphics") and the
file system (std::ifstream).  None of them is code of the repository, so

* the driver is a parameter `Driver`: a deterministic oracle that answers every
  value-returning call from the history of the calls made so far (the history is
  the driver state);
* every call the component issues is recorded, with its answer, in `World.calls`;
* every log entry the component writes is recorded in `World.log`;
* the file system is a parameter `FileSystem` giving, per path, what the stream
  operations used by the component do on that path.

What the driver does with a request is not code of the repository.  Where a claim
speaks of the state of the driver, the OpenGL rule it rests on is a definition of its
own (`current_program`, `live_programs`) or a named condition on the driver
(`link_success_only_for_objects`, `create_program_fresh`).

Handles (`GLuint`) are natural numbers: the component never does arithmetic on them.
Source texts and paths are strings: a `std::string` may hold NUL characters, a
`const char *` argument is the text before the first NUL (`c_str`).  The status
variable `int success` is an integer, tested only against zero.
-/

/-! ## The driver boundary -/

/-- Unsigned driver handle (OpenGL `GLuint`). -/
abbrev GLuint := Nat

/-- Enumerant of the driver API (OpenGL `GLenum`). -/
abbrev GLenum := Nat

/-- Stage kind of a vertex shader (value of the OpenGL header constant). -/
def GL_VERTEX_SHADER : GLenum := 0x8B31

/-- Stage kind of a fragment shader (value of the OpenGL header constant). -/
def GL_FRAGMENT_SHADER : GLenum := 0x8B30

/-- Parameter name of the compile status query. -/
def GL_COMPILE_STATUS : GLenum := 0x8B81

/-- Parameter name of the link status query. -/
def GL_LINK_STATUS : GLenum := 0x8B82

/-- One driver call together with the value it returned or wrote back.
`glDeleteProgram` belongs to the driver API (a caller may have issued it before);
the component itself never issues it. -/
inductive GLCall where
  | glCreateShader (shader_type : GLenum) (ret : GLuint)
  | glShaderSource (shader : GLuint) (source : String)
  | glCompileShader (shader : GLuint)
  | glGetShaderiv (shader : GLuint) (pname : GLenum) (ret : Int)
  | glGetShaderInfoLog (shader : GLuint) (bufSize : Nat) (ret : String)
  | glCreateProgram (ret : GLuint)
  | glAttachShader (program : GLuint) (shader : GLuint)
  | glLinkProgram (program : GLuint)
  | glGetProgramiv (program : GLuint) (pname : GLenum) (ret : Int)
  | glGetProgramInfoLog (program : GLuint) (bufSize : Nat) (ret : String)
  | glDeleteShader (shader : GLuint)
  | glUseProgram (program : GLuint)
  | glDeleteProgram (program : GLuint)
  deriving DecidableEq, Repr

/-- The graphics driver as an oracle.  Each field answers one value-returning call
of the API, given the calls made before it (oldest first).  The status fields give
the value found in the `int success` variable after the query; the info-log fields
give the text found in the `info_log` buffer after a query with the given buffer
size. -/
structure Driver where
  createShader : List GLCall → GLenum → GLuint
  shaderiv : List GLCall → GLuint → GLenum → Int
  shaderInfoLog : List GLCall → GLuint → Nat → String
  createProgram : List GLCall → GLuint
  programiv : List GLCall → GLuint → GLenum → Int
  programInfoLog : List GLCall → GLuint → Nat → String

/-! ## The logging sink -/

/-- Severity of a log entry (the two spdlog levels the component uses). -/
inductive Level where
  | info
  | error
  deriving DecidableEq, Repr

/-- One entry written to the "graphics" logging channel. -/
structure LogEntry where
  level : Level
  msg : String
  deriving DecidableEq, Repr

/-- Everything the component can change outside its own instance: the calls made
to the driver and the entries written to the log, both oldest first. -/
structure World where
  calls : List GLCall
  log : List LogEntry
  deriving DecidableEq, Repr

/-- Call `spdlog::get(Systems::graphics)->info(msg)`. -/
def spdlog_info (msg : String) (w : World) : World :=
  ⟨w.calls, w.log ++ [⟨Level.info, msg⟩]⟩

/-- Call `spdlog::get(Systems::graphics)->error(msg)`. -/
def spdlog_error (msg : String) (w : World) : World :=
  ⟨w.calls, w.log ++ [⟨Level.error, msg⟩]⟩

/-! ## Driver calls as state transformers -/

/-- Call `glCreateShader(shader_type)`. -/
def glCreateShader (d : Driver) (shader_type : GLenum) (w : World) : GLuint × World :=
  let r := d.createShader w.calls shader_type
  (r, ⟨w.calls ++ [GLCall.glCreateShader shader_type r], w.log⟩)

/-- Call `glShaderSource(shader, 1, &source, NULL)`. -/
def glShaderSource (shader : GLuint) (source : String) (w : World) : World :=
  ⟨w.calls ++ [GLCall.glShaderSource shader source], w.log⟩

/-- Call `glCompileShader(shader)`. -/
def glCompileShader (shader : GLuint) (w : World) : World :=
  ⟨w.calls ++ [GLCall.glCompileShader shader], w.log⟩

/-- Call `glGetShaderiv(shader, pname, &success)`; the result is `success`. -/
def glGetShaderiv (d : Driver) (shader : GLuint) (pname : GLenum) (w : World) : Int × World :=
  let r := d.shaderiv w.calls shader pname
  (r, ⟨w.calls ++ [GLCall.glGetShaderiv shader pname r], w.log⟩)

/-- Call `glGetShaderInfoLog(shader, bufSize, NULL, info_log)`; the result is the
text left in `info_log`. -/
def glGetShaderInfoLog (d : Driver) (shader : GLuint) (bufSize : Nat) (w : World) :
    String × World :=
  let r := d.shaderInfoLog w.calls shader bufSize
  (r, ⟨w.calls ++ [GLCall.glGetShaderInfoLog shader bufSize r], w.log⟩)

/-- Call `glCreateProgram()`. -/
def glCreateProgram (d : Driver) (w : World) : GLuint × World :=
  let r := d.createProgram w.calls
  (r, ⟨w.calls ++ [GLCall.glCreateProgram r], w.log⟩)

/-- Call `glAttachShader(program, shader)`. -/
def glAttachShader (program shader : GLuint) (w : World) : World :=
  ⟨w.calls ++ [GLCall.glAttachShader program shader], w.log⟩

/-- Call `glLinkProgram(program)`. -/
def glLinkProgram (program : GLuint) (w : World) : World :=
  ⟨w.calls ++ [GLCall.glLinkProgram program], w.log⟩

/-- Call `glGetProgramiv(program, pname, &success)`; the result is `success`. -/
def glGetProgramiv (d : Driver) (program : GLuint) (pname : GLenum) (w : World) :
    Int × World :=
  let r := d.programiv w.calls program pname
  (r, ⟨w.calls ++ [GLCall.glGetProgramiv program pname r], w.log⟩)

/-- Call `glGetProgramInfoLog(program, bufSize, NULL, info_log)`; the result is the
text left in `info_log`. -/
def glGetProgramInfoLog (d : Driver) (program : GLuint) (bufSize : Nat) (w : World) :
    String × World :=
  let r := d.programInfoLog w.calls program bufSize
  (r, ⟨w.calls ++ [GLCall.glGetProgramInfoLog program bufSize r], w.log⟩)

/-- Call `glDeleteShader(shader)`. -/
def glDeleteShader (shader : GLuint) (w : World) : World :=
  ⟨w.calls ++ [GLCall.glDeleteShader shader], w.log⟩

/-- Call `glUseProgram(program)`. -/
def glUseProgram (program : GLuint) (w : World) : World :=
  ⟨w.calls ++ [GLCall.glUseProgram program], w.log⟩

/-! ## The file system boundary -/

/-- What the stream operations of `load_in_shaders_from_file` do on one path.

* `opens`: `std::ifstream::open` succeeds.  When it does not, the stream sets
  `failbit` and, because of the exception mask of lines 77-78, raises
  `std::ifstream::failure`.
* `text`: the characters that `string_stream << file_stream.rdbuf()` copies into the
  string stream, NUL characters included.
* `read_ok`: the copy ended at the end of the file, so that `text` is the whole
  content; `false` when it was cut short by a read error (an I/O error, or a path
  that opens but cannot be read, such as a directory).  The copy reads the stream
  buffer directly: a read error is recorded on the string stream, whose exception
  mask is empty, and never on the file stream, so nothing is raised.
* `closes`: `std::ifstream::close` succeeds; otherwise `failbit` is set and
  `std::ifstream::failure` is raised.
* `strerror`: the text of `strerror(errno)` once an operation on this path failed. -/
structure FileOutcome where
  opens : Bool
  text : String
  read_ok : Bool
  closes : Bool
  strerror : String
  deriving DecidableEq, Repr

/-- The file system: the outcome of the stream operations for every path. -/
abbrev FileSystem := String → FileOutcome

/-- A file that is opened, read to its end and closed without any failure. -/
def FileOutcome.ok (o : FileOutcome) : Bool :=
  o.opens && o.read_ok && o.closes

/-! ## The component -/

/-- The C string seen through `std::string::c_str()` by a reader that stops at the
terminating NUL, as `glShaderSource` does when its length argument is `NULL`: the
characters before the first NUL character. -/
def c_str (s : String) : String :=
  ⟨s.data.takeWhile fun c => c != Char.ofNat 0⟩

/-- The instance state of the class: the handle of the program object. -/
structure ShaderPipeline where
  shader_program_id : GLuint
  deriving DecidableEq, Repr

namespace ShaderPipeline

/-- Embedding of `ShaderPipeline::create_and_compile_shader_object` (lines 20-36).
The parameter `shader_source_code` is the C string the pointer refers to. -/
def create_and_compile_shader_object (d : Driver) (shader_source_code : String)
    (shader_type : GLenum) (w : World) : GLuint × World :=
  let (shader_object, w) := glCreateShader d shader_type w
  let w := glShaderSource shader_object shader_source_code w
  let w := glCompileShader shader_object w
  let (success, w) := glGetShaderiv d shader_object GL_COMPILE_STATUS w
  if success = 0 then
    let (info_log, w) := glGetShaderInfoLog d shader_object 512 w
    let w := spdlog_error ("shader compilation failed: " ++ info_log) w
    (shader_object, w)
  else
    (shader_object, w)

/-- Embedding of `ShaderPipeline::create_and_link_and_use_shader_program`
(lines 41-64). -/
def create_and_link_and_use_shader_program (d : Driver) (self : ShaderPipeline)
    (vertex_shader_id fragment_shader_id : GLuint) (w : World) : ShaderPipeline × World :=
  let (program, w) := glCreateProgram d w
  let self : ShaderPipeline := { self with shader_program_id := program }
  let w := glAttachShader self.shader_program_id vertex_shader_id w
  let w := glAttachShader self.shader_program_id fragment_shader_id w
  let w := glLinkProgram self.shader_program_id w
  let (success, w) := glGetProgramiv d self.shader_program_id GL_LINK_STATUS w
  let w :=
    if success = 0 then
      let (info_log, w) := glGetProgramInfoLog d self.shader_program_id 512 w
      spdlog_error ("shader program linking failed " ++ info_log) w
    else
      spdlog_info "shader program linking succeeded" w
  let w := glDeleteShader vertex_shader_id w
  let w := glDeleteShader fragment_shader_id w
  let w := glUseProgram self.shader_program_id w
  (self, w)

/-- Embedding of the `try` block of `load_in_shaders_from_file` (lines 80-93):
`Except.error e` when `std::ifstream::failure` is raised, with `e` the text of
`strerror(errno)`; otherwise the two strings assigned at lines 91-92. -/
def read_sources (fs : FileSystem) (vertex_shader_path fragment_shader_path : String) :
    Except String (String × String) :=
  let v := fs vertex_shader_path
  let f := fs fragment_shader_path
  -- line 81: vertex_shader_file_stream.open
  if !v.opens then Except.error v.strerror
  -- line 82: fragment_shader_file_stream.open
  else if !f.opens then Except.error f.strerror
  -- lines 85-86: the two copies through rdbuf() never raise
  -- line 88: vertex_shader_file_stream.close
  else if !v.closes then Except.error v.strerror
  -- line 89: fragment_shader_file_stream.close
  else if !f.closes then Except.error f.strerror
  -- lines 91-92
  else Except.ok (v.text, f.text)

/-- The source strings held by `vertex_shader_source_code` and
`fragment_shader_source_code` at line 99 together with the world after the `try`
statement (lines 75-97): both strings are still empty when the failure was caught. -/
def sources_after_try (fs : FileSystem) (vertex_shader_path fragment_shader_path : String)
    (w : World) : (String × String) × World :=
  match read_sources fs vertex_shader_path fragment_shader_path with
  | Except.ok srcs => (srcs, w)
  | Except.error e =>
    (("", ""),
      spdlog_error
        ("file not successfully read, either frag or vert shader has the error: " ++ e) w)

/-- Embedding of `ShaderPipeline::load_in_shaders_from_file` (lines 70-108). -/
def load_in_shaders_from_file (d : Driver) (fs : FileSystem) (self : ShaderPipeline)
    (vertex_shader_path fragment_shader_path : String) (w : World) :
    ShaderPipeline × World :=
  let w := spdlog_info
    ("loading in vertex shader: " ++ vertex_shader_path ++ " and fragment shader: "
      ++ fragment_shader_path) w
  let (srcs, w) := sources_after_try fs vertex_shader_path fragment_shader_path w
  let vertex_shader_source_code_c_str := c_str srcs.1
  let fragment_shader_source_code_c_str := c_str srcs.2
  let (vertex_shader_id, w) :=
    create_and_compile_shader_object d vertex_shader_source_code_c_str GL_VERTEX_SHADER w
  let (fragment_shader_id, w) :=
    create_and_compile_shader_object d fragment_shader_source_code_c_str GL_FRAGMENT_SHADER w
  create_and_link_and_use_shader_program d self vertex_shader_id fragment_shader_id w

end ShaderPipeline

/-! ## Observations on a world -/

/-- The outcome of the most recent link of program `p`: the link status the driver
holds for `p` right after the last `glLinkProgram p` of the calls `rest`, which follow
the history `hist`; `acc` when `rest` has no such request. -/
def link_outcome_from (d : Driver) (p : GLuint) :
    List GLCall → List GLCall → Option Int → Option Int
  | [], _, acc => acc
  | c :: rest, hist, acc =>
    link_outcome_from d p rest (hist ++ [c])
      (if c = GLCall.glLinkProgram p then
        some (d.programiv (hist ++ [c]) p GL_LINK_STATUS)
      else acc)

/-- The outcome of the most recent link of program `p` in a history; `none` when `p`
was never linked. -/
def link_outcome (d : Driver) (calls : List GLCall) (p : GLuint) : Option Int :=
  link_outcome_from d p calls [] none

/-- The OpenGL rule for one call (the rule of the driver, not of the component):
`glUseProgram p` makes `p` the current program when `p` is 0 (no program) or the most
recent link of `p` succeeded; otherwise the request is refused with an error and the
current program stays what it was.  No other call of the vocabulary changes the
current program. -/
def current_step (d : Driver) (hist : List GLCall) (cur : GLuint) (c : GLCall) : GLuint :=
  match c with
  | GLCall.glUseProgram p =>
    if p = 0 then 0
    else
      match link_outcome d hist p with
      | some s => if s = 0 then cur else p
      | none => cur
  | _ => cur

/-- The current program after the calls `rest`, which follow the history `hist` with
current program `cur`. -/
def current_from (d : Driver) : List GLCall → List GLCall → GLuint → GLuint
  | [], _, cur => cur
  | c :: rest, hist, cur => current_from d rest (hist ++ [c]) (current_step d hist cur c)

/-- The current (active) program of the driver after a history, 0 when there is
none. -/
def current_program (d : Driver) (calls : List GLCall) : GLuint :=
  current_from d calls [] 0

/-- Status and info-log queries: calls that only read from the driver. -/
def GLCall.isQuery : GLCall → Bool
  | GLCall.glGetShaderiv _ _ _ => true
  | GLCall.glGetShaderInfoLog _ _ _ => true
  | GLCall.glGetProgramiv _ _ _ => true
  | GLCall.glGetProgramInfoLog _ _ _ => true
  | _ => false

/-- The calls issued between world `w` and the later world `w2`. -/
def new_calls (w w2 : World) : List GLCall :=
  w2.calls.drop w.calls.length

/-- The log entries written between world `w` and the later world `w2`. -/
def new_log (w w2 : World) : List LogEntry :=
  w2.log.drop w.log.length

/-- Program handles returned by the create-program calls of a history. -/
def created_programs (calls : List GLCall) : List GLuint :=
  calls.filterMap fun c =>
    match c with
    | GLCall.glCreateProgram p => some p
    | _ => none

/-- One step of the program table of the driver: a create-program call adds the
handle it returned, a delete-program call removes its argument. -/
def live_step (live : List GLuint) (c : GLCall) : List GLuint :=
  match c with
  | GLCall.glCreateProgram p => live ++ [p]
  | GLCall.glDeleteProgram p => live.filter fun q => q != p
  | _ => live

/-- Program handles that were issued by the driver and for which no delete-program
request followed: the program objects still allocated after the history. -/
def live_programs (calls : List GLCall) : List GLuint :=
  calls.foldl live_step []

/-- Requests to release a program object. -/
def GLCall.isDeleteProgram : GLCall → Bool
  | GLCall.glDeleteProgram _ => true
  | _ => false

/-- The status written back by a status query; `none` for every other call. -/
def GLCall.status : GLCall → Option Int
  | GLCall.glGetShaderiv _ _ r => some r
  | GLCall.glGetProgramiv _ _ r => some r
  | _ => none

/-- Every status query of the history was answered with success (a non-zero value). -/
def reports_success (calls : List GLCall) : Bool :=
  calls.all fun c =>
    match c.status with
    | some r => r != 0
    | none => true

/-- The source texts submitted to the driver, in order, each with its shader. -/
def submitted_sources (calls : List GLCall) : List (GLuint × String) :=
  calls.filterMap fun c =>
    match c with
    | GLCall.glShaderSource s src => some (s, src)
    | _ => none

/-! ## What the driver answers during one operation -/

/-- The calls made by a compile before the status query. -/
def compile_calls (h : GLuint) (src : String) (ty : GLenum) : List GLCall :=
  [GLCall.glCreateShader ty h, GLCall.glShaderSource h src, GLCall.glCompileShader h]

/-- The compile status the driver reports when `src` is compiled as stage `ty` after
the history `calls`. -/
def compile_status (d : Driver) (calls : List GLCall) (src : String) (ty : GLenum) : Int :=
  d.shaderiv (calls ++ compile_calls (d.createShader calls ty) src ty)
    (d.createShader calls ty) GL_COMPILE_STATUS

/-- The diagnostic text the driver hands out, for a buffer of 512 bytes, after it
reported the compile status of `src` as stage `ty`. -/
def compile_info_log (d : Driver) (calls : List GLCall) (src : String) (ty : GLenum) :
    String :=
  d.shaderInfoLog
    (calls ++ compile_calls (d.createShader calls ty) src ty ++
      [GLCall.glGetShaderiv (d.createShader calls ty) GL_COMPILE_STATUS
        (compile_status d calls src ty)])
    (d.createShader calls ty) 512

/-- The calls of one compile, given the answers of the driver: the handle `h`, the
status `s` and the diagnostic text `txt`. -/
def compile_trace (ty : GLenum) (h : GLuint) (src : String) (s : Int) (txt : String) :
    List GLCall :=
  [GLCall.glCreateShader ty h, GLCall.glShaderSource h src, GLCall.glCompileShader h,
    GLCall.glGetShaderiv h GL_COMPILE_STATUS s] ++
    (if s = 0 then [GLCall.glGetShaderInfoLog h 512 txt] else [])

/-- The calls of one link-and-use step, given the answers of the driver: the handle
`p`, the status `s` and the diagnostic text `txt`. -/
def link_trace (p v f : GLuint) (s : Int) (txt : String) : List GLCall :=
  [GLCall.glCreateProgram p, GLCall.glAttachShader p v, GLCall.glAttachShader p f,
    GLCall.glLinkProgram p, GLCall.glGetProgramiv p GL_LINK_STATUS s] ++
    (if s = 0 then [GLCall.glGetProgramInfoLog p 512 txt] else []) ++
    [GLCall.glDeleteShader v, GLCall.glDeleteShader f, GLCall.glUseProgram p]

/-- The calls made by the link-and-use step up to and including the link request. -/
def link_calls (p v f : GLuint) : List GLCall :=
  [GLCall.glCreateProgram p, GLCall.glAttachShader p v, GLCall.glAttachShader p f,
    GLCall.glLinkProgram p]

/-- The link status the driver reports when `v` and `f` are linked after the history
`calls`. -/
def link_status (d : Driver) (calls : List GLCall) (v f : GLuint) : Int :=
  d.programiv (calls ++ link_calls (d.createProgram calls) v f)
    (d.createProgram calls) GL_LINK_STATUS

/-- The diagnostic text the driver hands out, for a buffer of 512 bytes, after it
reported the link status of `v` and `f`. -/
def link_info_log (d : Driver) (calls : List GLCall) (v f : GLuint) : String :=
  d.programInfoLog
    (calls ++ link_calls (d.createProgram calls) v f ++
      [GLCall.glGetProgramiv (d.createProgram calls) GL_LINK_STATUS
        (link_status d calls v f)])
    (d.createProgram calls) 512

/-! ## Concrete collaborators used for evaluation -/

/-- The handles returned by the create calls of a history. -/
def issued_handles (calls : List GLCall) : List GLuint :=
  calls.filterMap fun c =>
    match c with
    | GLCall.glCreateShader _ h => some h
    | GLCall.glCreateProgram h => some h
    | _ => none

/-- A handle above every handle issued in the history. -/
def next_handle (calls : List GLCall) : GLuint :=
  (issued_handles calls).foldr max 0 + 1

/-- A driver that issues the handles 1, 2, 3, ... in the order of the create calls,
accepts every source and links every program (and reports failure for the name 0,
which is not an object). -/
def counting_driver : Driver where
  createShader := fun calls _ => next_handle calls
  shaderiv := fun _ s _ => if s = 0 then 0 else 1
  shaderInfoLog := fun _ _ _ => ""
  createProgram := fun calls => next_handle calls
  programiv := fun _ p _ => if p = 0 then 0 else 1
  programInfoLog := fun _ _ _ => ""

/-- A driver that issues the handles 1, 2, 3, ... and rejects every source and every
link, with fixed diagnostic texts. -/
def rejecting_driver : Driver where
  createShader := fun calls _ => next_handle calls
  shaderiv := fun _ _ _ => 0
  shaderInfoLog := fun _ _ _ => "0:1: error"
  createProgram := fun calls => next_handle calls
  programiv := fun _ _ _ => 0
  programInfoLog := fun _ _ _ => "link error"

/-- OpenGL rule: the name 0 is not a program object, so link success is never
reported for it. -/
def link_success_only_for_objects (d : Driver) : Prop :=
  ∀ (hist : List GLCall) (p : GLuint), d.programiv hist p GL_LINK_STATUS ≠ 0 → p ≠ 0

/-- OpenGL rule: `glCreateProgram` returns 0 when it fails and otherwise a name that
is not in use, that is, not the name of a program that is still allocated. -/
def create_program_fresh (d : Driver) : Prop :=
  ∀ hist : List GLCall, d.createProgram hist = 0 ∨ d.createProgram hist ∉ live_programs hist

/-- A readable file with the given content. -/
def readable_file (text : String) : FileOutcome :=
  ⟨true, text, true, true, ""⟩

/-- A path that does not exist: `open` fails. -/
def missing_file : FileOutcome :=
  ⟨false, "", false, false, "No such file or directory"⟩

/-- A path that names a directory: `open` succeeds, the first read fails and no
character is copied. -/
def directory : FileOutcome :=
  ⟨true, "", false, true, "Is a directory"⟩

/-- A file whose read breaks off with an I/O error after the characters `text`. -/
def broken_file (text : String) : FileOutcome :=
  ⟨true, text, false, true, "Input/output error"⟩

/-- A small file system: two shader files, a second pair of shader files, a file
with a NUL character in the middle, a directory, a file on a failing device, and
nothing else. -/
def demo_fs : FileSystem := fun path =>
  if path = "a.vert" then readable_file "gl_Position = vec4(0.0);"
  else if path = "a.frag" then readable_file "color = vec4(1.0);"
  else if path = "b.vert" then readable_file "gl_Position = vec4(1.0);"
  else if path = "b.frag" then readable_file "color = vec4(0.5);"
  else if path = "nul.vert" then readable_file "ab\x00cd"
  else if path = "shaders" then directory
  else if path = "bad.vert" then broken_file "gl_Position = "
  else missing_file

/-- The world before the component has done anything. -/
def World.initial : World := ⟨[], []⟩

/-- An instance before its first load (the member holds an arbitrary value). -/
def fresh : ShaderPipeline := ⟨0⟩

open ShaderPipeline

theorem new_calls_append (w w2 : World) (ext : List GLCall) (h : w2.calls = w.calls ++ ext) :
    new_calls w w2 = ext := by
  simp [new_calls, h]

theorem new_log_append (w w2 : World) (ext : List LogEntry) (h : w2.log = w.log ++ ext) :
    new_log w w2 = ext := by
  simp [new_log, h]

/-- The result of a compile, in closed form. -/
theorem compile_eq (d : Driver) (src : String) (ty : GLenum) (w : World) :
    create_and_compile_shader_object d src ty w =
      (d.createShader w.calls ty,
        ⟨w.calls ++ (compile_calls (d.createShader w.calls ty) src ty ++
            [GLCall.glGetShaderiv (d.createShader w.calls ty) GL_COMPILE_STATUS
              (compile_status d w.calls src ty)] ++
            (if compile_status d w.calls src ty = 0 then
              [GLCall.glGetShaderInfoLog (d.createShader w.calls ty) 512
                (compile_info_log d w.calls src ty)]
            else [])),
          w.log ++
            (if compile_status d w.calls src ty = 0 then
              [⟨Level.error, "shader compilation failed: " ++
                compile_info_log d w.calls src ty⟩]
            else [])⟩) := by
  by_cases hs : d.shaderiv (w.calls ++ [GLCall.glCreateShader ty (d.createShader w.calls ty),
      GLCall.glShaderSource (d.createShader w.calls ty) src,
      GLCall.glCompileShader (d.createShader w.calls ty)])
      (d.createShader w.calls ty) GL_COMPILE_STATUS = 0 <;>
    simp [create_and_compile_shader_object, glCreateShader, glShaderSource, glCompileShader,
      glGetShaderiv, glGetShaderInfoLog, spdlog_error, compile_calls, compile_status,
      compile_info_log, hs]

/-- The result of the link-and-use step, in closed form. -/
theorem link_eq (d : Driver) (self : ShaderPipeline) (v f : GLuint) (w : World) :
    create_and_link_and_use_shader_program d self v f w =
      (⟨d.createProgram w.calls⟩,
        ⟨w.calls ++ (link_calls (d.createProgram w.calls) v f ++
            ([GLCall.glGetProgramiv (d.createProgram w.calls) GL_LINK_STATUS
              (link_status d w.calls v f)] ++
            (if link_status d w.calls v f = 0 then
              [GLCall.glGetProgramInfoLog (d.createProgram w.calls) 512
                (link_info_log d w.calls v f)]
            else [])) ++
            [GLCall.glDeleteShader v, GLCall.glDeleteShader f,
              GLCall.glUseProgram (d.createProgram w.calls)]),
          w.log ++
            [if link_status d w.calls v f = 0 then
              ⟨Level.error, "shader program linking failed " ++ link_info_log d w.calls v f⟩
            else
              ⟨Level.info, "shader program linking succeeded"⟩]⟩) := by
  by_cases hs : d.programiv (w.calls ++ [GLCall.glCreateProgram (d.createProgram w.calls),
      GLCall.glAttachShader (d.createProgram w.calls) v,
      GLCall.glAttachShader (d.createProgram w.calls) f,
      GLCall.glLinkProgram (d.createProgram w.calls)])
      (d.createProgram w.calls) GL_LINK_STATUS = 0 <;>
    simp [create_and_link_and_use_shader_program, glCreateProgram, glAttachShader,
      glLinkProgram, glGetProgramiv, glGetProgramInfoLog, spdlog_error, spdlog_info,
      glDeleteShader, glUseProgram, link_calls, link_status, link_info_log, hs]

/-! ## create_and_compile_shader_object -/

/-- C1: for every source text, stage kind, driver and history, the value returned by
create_and_compile_shader_object is the handle the driver issued from the
create-shader call for that stage kind (the first call the operation makes), and the
returned value stays the same when the status oracle of the driver is replaced by any
other one: it does not depend on the compile status. -/
theorem compile_returns_issued_handle (d : Driver) (src : String) (ty : GLenum) (w : World) :
    (create_and_compile_shader_object d src ty w).1 = d.createShader w.calls ty ∧
    (new_calls w (create_and_compile_shader_object d src ty w).2).head? =
      some (GLCall.glCreateShader ty (create_and_compile_shader_object d src ty w).1) ∧
    ∀ st : List GLCall → GLuint → GLenum → Int,
      (create_and_compile_shader_object { d with shaderiv := st } src ty w).1 =
        (create_and_compile_shader_object d src ty w).1 := by
  refine ⟨by rw [compile_eq], ?_, ?_⟩
  · rw [compile_eq]
    rw [new_calls_append w _ _ rfl]
    simp [compile_calls]
  · intro st
    rw [compile_eq, compile_eq]

/-- C5: create_and_compile_shader_object writes an error-level log entry exactly when
the compile status reported by the driver is failure (zero).  On failure the call
writes the single entry "shader compilation failed: " followed by the diagnostic text
the driver handed out for a buffer of 512 bytes, and the info-log query with that
bound is the last call it makes; on success it writes no entry and makes no
info-log query. -/
theorem compile_logs_exactly_on_failure (d : Driver) (src : String) (ty : GLenum)
    (w : World) :
    new_log w (create_and_compile_shader_object d src ty w).2 =
      (if compile_status d w.calls src ty = 0 then
        [⟨Level.error, "shader compilation failed: " ++ compile_info_log d w.calls src ty⟩]
      else []) ∧
    new_calls w (create_and_compile_shader_object d src ty w).2 =
      compile_calls (d.createShader w.calls ty) src ty ++
        [GLCall.glGetShaderiv (d.createShader w.calls ty) GL_COMPILE_STATUS
          (compile_status d w.calls src ty)] ++
        (if compile_status d w.calls src ty = 0 then
          [GLCall.glGetShaderInfoLog (d.createShader w.calls ty) 512
            (compile_info_log d w.calls src ty)]
        else []) ∧
    ((∃ e ∈ new_log w (create_and_compile_shader_object d src ty w).2,
        e.level = Level.error) ↔ compile_status d w.calls src ty = 0) := by
  have hl : new_log w (create_and_compile_shader_object d src ty w).2 =
      (if compile_status d w.calls src ty = 0 then
        [⟨Level.error, "shader compilation failed: " ++ compile_info_log d w.calls src ty⟩]
      else []) := by
    rw [compile_eq]
    exact new_log_append w _ _ rfl
  refine ⟨hl, ?_, ?_⟩
  · rw [compile_eq]
    exact new_calls_append w _ _ rfl
  · rw [hl]
    by_cases hs : compile_status d w.calls src ty = 0 <;> simp [hs]

/-! ## create_and_link_and_use_shader_program -/

/-- C3: for every pair of stage handles (v, f) and every link outcome, the calls made
by create_and_link_and_use_shader_program are: create-program, attach v, attach f,
link, then only status and info-log queries, then delete-shader v, delete-shader f,
and last the use-program request.  Both delete requests are thus issued in every
outcome, after the link request and before the program is activated. -/
theorem link_and_use_deletes_between_link_and_use (d : Driver) (self : ShaderPipeline)
    (v f : GLuint) (w : World) :
    ∃ queries : List GLCall,
      queries.all GLCall.isQuery = true ∧
      new_calls w (create_and_link_and_use_shader_program d self v f w).2 =
        [GLCall.glCreateProgram (d.createProgram w.calls),
          GLCall.glAttachShader (d.createProgram w.calls) v,
          GLCall.glAttachShader (d.createProgram w.calls) f,
          GLCall.glLinkProgram (d.createProgram w.calls)] ++ queries ++
        [GLCall.glDeleteShader v, GLCall.glDeleteShader f,
          GLCall.glUseProgram (d.createProgram w.calls)] := by
  refine ⟨[GLCall.glGetProgramiv (d.createProgram w.calls) GL_LINK_STATUS
      (link_status d w.calls v f)] ++
    (if link_status d w.calls v f = 0 then
      [GLCall.glGetProgramInfoLog (d.createProgram w.calls) 512
        (link_info_log d w.calls v f)]
    else []), ?_, ?_⟩
  · by_cases hs : link_status d w.calls v f = 0 <;> simp [hs, GLCall.isQuery]
  · rw [link_eq, new_calls_append w _ _ rfl]
    simp [link_calls]

/-- C6: for every pair of stage handles, create_and_link_and_use_shader_program writes
exactly one log entry.  It is the error-level entry "shader program linking failed "
followed by the link diagnostic text of the driver when the link status is failure
(zero), and the info-level entry "shader program linking succeeded" otherwise. -/
theorem link_and_use_writes_one_entry (d : Driver) (self : ShaderPipeline) (v f : GLuint)
    (w : World) :
    new_log w (create_and_link_and_use_shader_program d self v f w).2 =
      [if link_status d w.calls v f = 0 then
        ⟨Level.error, "shader program linking failed " ++ link_info_log d w.calls v f⟩
      else
        ⟨Level.info, "shader program linking succeeded"⟩] ∧
    GLCall.glGetProgramiv (d.createProgram w.calls) GL_LINK_STATUS
        (link_status d w.calls v f) ∈
      new_calls w (create_and_link_and_use_shader_program d self v f w).2 ∧
    (link_status d w.calls v f = 0 ↔
      GLCall.glGetProgramInfoLog (d.createProgram w.calls) 512
          (link_info_log d w.calls v f) ∈
        new_calls w (create_and_link_and_use_shader_program d self v f w).2) := by
  refine ⟨?_, ?_, ?_⟩
  · rw [link_eq]
    exact new_log_append w _ _ rfl
  · rw [link_eq, new_calls_append w _ _ rfl]
    simp
  · rw [link_eq, new_calls_append w _ _ rfl]
    by_cases hs : link_status d w.calls v f = 0 <;> simp [hs, link_calls]


/-! ## The current program of the driver -/

theorem link_outcome_from_append (d : Driver) (p : GLuint) (a b : List GLCall) :
    ∀ (hist : List GLCall) (acc : Option Int),
      link_outcome_from d p (a ++ b) hist acc =
        link_outcome_from d p b (hist ++ a) (link_outcome_from d p a hist acc) := by
  induction a with
  | nil => intro hist acc; simp [link_outcome_from]
  | cons c rest ih =>
    intro hist acc
    have e : hist ++ c :: rest = hist ++ [c] ++ rest := by simp
    rw [List.cons_append, link_outcome_from, link_outcome_from, ih, e]

theorem current_from_append (d : Driver) (a b : List GLCall) :
    ∀ (hist : List GLCall) (cur : GLuint),
      current_from d (a ++ b) hist cur =
        current_from d b (hist ++ a) (current_from d a hist cur) := by
  induction a with
  | nil => intro hist cur; simp [current_from]
  | cons c rest ih =>
    intro hist cur
    have e : hist ++ c :: rest = hist ++ [c] ++ rest := by simp
    rw [List.cons_append, current_from, current_from, ih, e]

theorem current_program_append (d : Driver) (h ext : List GLCall) :
    current_program d (h ++ ext) = current_from d ext h (current_program d h) := by
  simp [current_program, current_from_append]

theorem link_outcome_append (d : Driver) (h ext : List GLCall) (p : GLuint) :
    link_outcome d (h ++ ext) p = link_outcome_from d p ext h (link_outcome d h p) := by
  simp [link_outcome, link_outcome_from_append]

/-- The current program after a compile is the one before it: a compile makes no
use-program request. -/
theorem current_from_compile (d : Driver) (hist : List GLCall) (cur : GLuint)
    (ty : GLenum) (h : GLuint) (src : String) (s : Int) (txt : String) :
    current_from d
        ([GLCall.glCreateShader ty h, GLCall.glShaderSource h src, GLCall.glCompileShader h,
          GLCall.glGetShaderiv h GL_COMPILE_STATUS s] ++
          (if s = 0 then [GLCall.glGetShaderInfoLog h 512 txt] else []))
        hist cur = cur := by
  by_cases hs : s = 0 <;> simp [hs, current_from, current_step]

/-- The current program after the calls of the link-and-use step: the new program when
it is 0 or its link succeeded, the previous current program otherwise. -/
theorem current_from_link (d : Driver) (hist : List GLCall) (cur : GLuint)
    (p v f : GLuint) (s : Int) (txt : String) :
    current_from d
        ([GLCall.glCreateProgram p, GLCall.glAttachShader p v, GLCall.glAttachShader p f,
          GLCall.glLinkProgram p, GLCall.glGetProgramiv p GL_LINK_STATUS s] ++
          (if s = 0 then [GLCall.glGetProgramInfoLog p 512 txt] else []) ++
          [GLCall.glDeleteShader v, GLCall.glDeleteShader f, GLCall.glUseProgram p])
        hist cur =
      if d.programiv (hist ++ [GLCall.glCreateProgram p, GLCall.glAttachShader p v,
          GLCall.glAttachShader p f, GLCall.glLinkProgram p]) p GL_LINK_STATUS ≠ 0 ∨ p = 0
      then p else cur := by
  by_cases hs : s = 0 <;> by_cases hp : p = 0 <;>
    by_cases hl : d.programiv (hist ++ [GLCall.glCreateProgram p, GLCall.glAttachShader p v,
          GLCall.glAttachShader p f, GLCall.glLinkProgram p]) p GL_LINK_STATUS = 0 <;>
    simp [hs, hp, hl, current_from, current_step, link_outcome_append, link_outcome_from]

/-- The current program after the calls of a whole load. -/
theorem current_from_load (d : Driver) (hist : List GLCall) (cur : GLuint)
    (v f p : GLuint) (sv sf : String) (s1 s2 s3 : Int) (t1 t2 t3 : String) :
    current_from d
        (compile_trace GL_VERTEX_SHADER v sv s1 t1 ++
          compile_trace GL_FRAGMENT_SHADER f sf s2 t2 ++ link_trace p v f s3 t3)
        hist cur =
      if d.programiv
          (hist ++ (compile_trace GL_VERTEX_SHADER v sv s1 t1 ++
            compile_trace GL_FRAGMENT_SHADER f sf s2 t2) ++
            [GLCall.glCreateProgram p, GLCall.glAttachShader p v,
              GLCall.glAttachShader p f, GLCall.glLinkProgram p]) p GL_LINK_STATUS ≠ 0 ∨ p = 0
      then p else cur := by
  rw [current_from_append d (compile_trace GL_VERTEX_SHADER v sv s1 t1 ++
      compile_trace GL_FRAGMENT_SHADER f sf s2 t2) (link_trace p v f s3 t3),
    current_from_append d (compile_trace GL_VERTEX_SHADER v sv s1 t1)
      (compile_trace GL_FRAGMENT_SHADER f sf s2 t2)]
  unfold compile_trace link_trace
  rw [current_from_compile, current_from_compile, current_from_link]

/-! ## load_in_shaders_from_file -/

theorem read_sources_of_ok (fs : FileSystem) (vp fp : String)
    (hv : (fs vp).ok = true) (hf : (fs fp).ok = true) :
    read_sources fs vp fp = Except.ok ((fs vp).text, (fs fp).text) := by
  simp only [FileOutcome.ok, Bool.and_eq_true] at hv hf
  simp [read_sources, hv.1.1, hv.2, hf.1.1, hf.2]

theorem sources_after_try_of_ok (fs : FileSystem) (vp fp : String) (w : World)
    (hv : (fs vp).ok = true) (hf : (fs fp).ok = true) :
    sources_after_try fs vp fp w = (((fs vp).text, (fs fp).text), w) := by
  simp [sources_after_try, read_sources_of_ok fs vp fp hv hf]

/-- The load is the two compiles followed by the link-and-use step, run on the world
left by the `try` statement. -/
theorem load_eq (d : Driver) (fs : FileSystem) (self : ShaderPipeline) (vp fp : String)
    (w : World) :
    load_in_shaders_from_file d fs self vp fp w =
      create_and_link_and_use_shader_program d self
        (create_and_compile_shader_object d
          (c_str (sources_after_try fs vp fp (spdlog_info
            ("loading in vertex shader: " ++ vp ++ " and fragment shader: " ++ fp) w)).1.1)
          GL_VERTEX_SHADER
          (sources_after_try fs vp fp (spdlog_info
            ("loading in vertex shader: " ++ vp ++ " and fragment shader: " ++ fp) w)).2).1
        (create_and_compile_shader_object d
          (c_str (sources_after_try fs vp fp (spdlog_info
            ("loading in vertex shader: " ++ vp ++ " and fragment shader: " ++ fp) w)).1.2)
          GL_FRAGMENT_SHADER
          (create_and_compile_shader_object d
            (c_str (sources_after_try fs vp fp (spdlog_info
              ("loading in vertex shader: " ++ vp ++ " and fragment shader: " ++ fp) w)).1.1)
            GL_VERTEX_SHADER
            (sources_after_try fs vp fp (spdlog_info
              ("loading in vertex shader: " ++ vp ++ " and fragment shader: " ++ fp) w)).2).2).1
        (create_and_compile_shader_object d
          (c_str (sources_after_try fs vp fp (spdlog_info
            ("loading in vertex shader: " ++ vp ++ " and fragment shader: " ++ fp) w)).1.2)
          GL_FRAGMENT_SHADER
          (create_and_compile_shader_object d
            (c_str (sources_after_try fs vp fp (spdlog_info
              ("loading in vertex shader: " ++ vp ++ " and fragment shader: " ++ fp) w)).1.1)
            GL_VERTEX_SHADER
            (sources_after_try fs vp fp (spdlog_info
              ("loading in vertex shader: " ++ vp ++ " and fragment shader: " ++ fp) w)).2).2).2 := by
  rfl

/-- The result of a compile, with the answers of the driver named. -/
theorem compile_shape (d : Driver) (src : String) (ty : GLenum) (w : World) :
    ∃ (h : GLuint) (s : Int) (txt : String),
      create_and_compile_shader_object d src ty w =
        (h, ⟨w.calls ++ ([GLCall.glCreateShader ty h, GLCall.glShaderSource h src,
              GLCall.glCompileShader h, GLCall.glGetShaderiv h GL_COMPILE_STATUS s] ++
              (if s = 0 then [GLCall.glGetShaderInfoLog h 512 txt] else [])),
            w.log ++
              (if s = 0 then [⟨Level.error, "shader compilation failed: " ++ txt⟩]
              else [])⟩) :=
  ⟨d.createShader w.calls ty, compile_status d w.calls src ty,
    compile_info_log d w.calls src ty, by rw [compile_eq]; simp [compile_calls]⟩

/-- The result of the link-and-use step, with the answers of the driver named. -/
theorem link_shape (d : Driver) (self : ShaderPipeline) (v f : GLuint) (w : World) :
    ∃ (p : GLuint) (s : Int) (txt : String),
      p = d.createProgram w.calls ∧
      s = d.programiv (w.calls ++ [GLCall.glCreateProgram p, GLCall.glAttachShader p v,
        GLCall.glAttachShader p f, GLCall.glLinkProgram p]) p GL_LINK_STATUS ∧
      create_and_link_and_use_shader_program d self v f w =
        (⟨p⟩, ⟨w.calls ++ ([GLCall.glCreateProgram p, GLCall.glAttachShader p v,
              GLCall.glAttachShader p f, GLCall.glLinkProgram p,
              GLCall.glGetProgramiv p GL_LINK_STATUS s] ++
              (if s = 0 then [GLCall.glGetProgramInfoLog p 512 txt] else []) ++
              [GLCall.glDeleteShader v, GLCall.glDeleteShader f, GLCall.glUseProgram p]),
            w.log ++
              [if s = 0 then ⟨Level.error, "shader program linking failed " ++ txt⟩
              else ⟨Level.info, "shader program linking succeeded"⟩]⟩) :=
  ⟨d.createProgram w.calls, link_status d w.calls v f, link_info_log d w.calls v f,
    rfl, by simp [link_status, link_calls], by rw [link_eq]; simp [link_calls]⟩

/-- The world after the `try` statement: the same calls, and the log extended by at
most the file error entry. -/
theorem sources_after_try_shape (fs : FileSystem) (vp fp : String) (w : World) :
    sources_after_try fs vp fp w =
      (match read_sources fs vp fp with
        | Except.ok srcs => srcs
        | Except.error _ => ("", ""),
       ⟨w.calls, w.log ++
        (match read_sources fs vp fp with
          | Except.ok _ => []
          | Except.error e =>
            [⟨Level.error,
              "file not successfully read, either frag or vert shader has the error: "
                ++ e⟩])⟩) := by
  unfold sources_after_try
  cases read_sources fs vp fp <;> simp [spdlog_error]

/-- The result of a load, with the answers of the driver named: `sv` and `sf` are the
sources held after the `try` statement and `fe` the file error entries. -/
theorem load_shape_aux (d : Driver) (fs : FileSystem) (self : ShaderPipeline) (vp fp : String)
    (w : World) :
    ∃ (v f p : GLuint) (s1 s2 s3 : Int) (t1 t2 t3 : String),
      p = d.createProgram
        (w.calls ++
          (compile_trace GL_VERTEX_SHADER v (c_str (sources_after_try fs vp fp w).1.1) s1 t1 ++
            compile_trace GL_FRAGMENT_SHADER f (c_str (sources_after_try fs vp fp w).1.2) s2
              t2)) ∧
      s3 = d.programiv
        (w.calls ++
          (compile_trace GL_VERTEX_SHADER v (c_str (sources_after_try fs vp fp w).1.1) s1 t1 ++
            compile_trace GL_FRAGMENT_SHADER f (c_str (sources_after_try fs vp fp w).1.2) s2 t2)
          ++ [GLCall.glCreateProgram p, GLCall.glAttachShader p v,
            GLCall.glAttachShader p f, GLCall.glLinkProgram p]) p GL_LINK_STATUS ∧
      load_in_shaders_from_file d fs self vp fp w =
        (⟨p⟩,
          ⟨w.calls ++
            ([GLCall.glCreateShader GL_VERTEX_SHADER v,
              GLCall.glShaderSource v (c_str (sources_after_try fs vp fp w).1.1),
              GLCall.glCompileShader v, GLCall.glGetShaderiv v GL_COMPILE_STATUS s1] ++
              (if s1 = 0 then [GLCall.glGetShaderInfoLog v 512 t1] else []) ++
            ([GLCall.glCreateShader GL_FRAGMENT_SHADER f,
              GLCall.glShaderSource f (c_str (sources_after_try fs vp fp w).1.2),
              GLCall.glCompileShader f, GLCall.glGetShaderiv f GL_COMPILE_STATUS s2] ++
              (if s2 = 0 then [GLCall.glGetShaderInfoLog f 512 t2] else [])) ++
            ([GLCall.glCreateProgram p, GLCall.glAttachShader p v,
              GLCall.glAttachShader p f, GLCall.glLinkProgram p,
              GLCall.glGetProgramiv p GL_LINK_STATUS s3] ++
              (if s3 = 0 then [GLCall.glGetProgramInfoLog p 512 t3] else []) ++
              [GLCall.glDeleteShader v, GLCall.glDeleteShader f, GLCall.glUseProgram p])),
           w.log ++
            ([⟨Level.info,
                "loading in vertex shader: " ++ vp ++ " and fragment shader: " ++ fp⟩] ++
              (match read_sources fs vp fp with
                | Except.ok _ => []
                | Except.error e =>
                  [⟨Level.error,
                    "file not successfully read, either frag or vert shader has the error: "
                      ++ e⟩]) ++
              (if s1 = 0 then [⟨Level.error, "shader compilation failed: " ++ t1⟩] else []) ++
              (if s2 = 0 then [⟨Level.error, "shader compilation failed: " ++ t2⟩] else []) ++
              [if s3 = 0 then ⟨Level.error, "shader program linking failed " ++ t3⟩
              else ⟨Level.info, "shader program linking succeeded"⟩])⟩) := by
  rw [load_eq]
  simp only [sources_after_try_shape fs vp fp]
  obtain ⟨v, s1, t1, e1⟩ := compile_shape d
    (c_str (match read_sources fs vp fp with
      | Except.ok srcs => srcs
      | Except.error _ => ("", "")).1) GL_VERTEX_SHADER
    ⟨(spdlog_info ("loading in vertex shader: " ++ vp ++ " and fragment shader: " ++ fp)
        w).calls,
      (spdlog_info ("loading in vertex shader: " ++ vp ++ " and fragment shader: " ++ fp)
        w).log ++
        (match read_sources fs vp fp with
          | Except.ok _ => []
          | Except.error e =>
            [⟨Level.error,
              "file not successfully read, either frag or vert shader has the error: "
                ++ e⟩])⟩
  rw [e1]
  simp only
  obtain ⟨f, s2, t2, e2⟩ := compile_shape d
    (c_str (match read_sources fs vp fp with
      | Except.ok srcs => srcs
      | Except.error _ => ("", "")).2) GL_FRAGMENT_SHADER
    ⟨(spdlog_info ("loading in vertex shader: " ++ vp ++ " and fragment shader: " ++ fp)
        w).calls ++ ([GLCall.glCreateShader GL_VERTEX_SHADER v,
          GLCall.glShaderSource v (c_str (match read_sources fs vp fp with
            | Except.ok srcs => srcs
            | Except.error _ => ("", "")).1),
          GLCall.glCompileShader v, GLCall.glGetShaderiv v GL_COMPILE_STATUS s1] ++
          (if s1 = 0 then [GLCall.glGetShaderInfoLog v 512 t1] else [])),
      (spdlog_info ("loading in vertex shader: " ++ vp ++ " and fragment shader: " ++ fp)
        w).log ++
        (match read_sources fs vp fp with
          | Except.ok _ => []
          | Except.error e =>
            [⟨Level.error,
              "file not successfully read, either frag or vert shader has the error: "
                ++ e⟩]) ++
        (if s1 = 0 then [⟨Level.error, "shader compilation failed: " ++ t1⟩] else [])⟩
  rw [e2]
  simp only
  obtain ⟨p, s3, t3, hp, h3, e3⟩ := link_shape d self v f
    ⟨(spdlog_info ("loading in vertex shader: " ++ vp ++ " and fragment shader: " ++ fp)
        w).calls ++ ([GLCall.glCreateShader GL_VERTEX_SHADER v,
          GLCall.glShaderSource v (c_str (match read_sources fs vp fp with
            | Except.ok srcs => srcs
            | Except.error _ => ("", "")).1),
          GLCall.glCompileShader v, GLCall.glGetShaderiv v GL_COMPILE_STATUS s1] ++
          (if s1 = 0 then [GLCall.glGetShaderInfoLog v 512 t1] else [])) ++
        ([GLCall.glCreateShader GL_FRAGMENT_SHADER f,
          GLCall.glShaderSource f (c_str (match read_sources fs vp fp with
            | Except.ok srcs => srcs
            | Except.error _ => ("", "")).2),
          GLCall.glCompileShader f, GLCall.glGetShaderiv f GL_COMPILE_STATUS s2] ++
          (if s2 = 0 then [GLCall.glGetShaderInfoLog f 512 t2] else [])),
      (spdlog_info ("loading in vertex shader: " ++ vp ++ " and fragment shader: " ++ fp)
        w).log ++
        (match read_sources fs vp fp with
          | Except.ok _ => []
          | Except.error e =>
            [⟨Level.error,
              "file not successfully read, either frag or vert shader has the error: "
                ++ e⟩]) ++
        (if s1 = 0 then [⟨Level.error, "shader compilation failed: " ++ t1⟩] else []) ++
        (if s2 = 0 then [⟨Level.error, "shader compilation failed: " ++ t2⟩] else [])⟩
  rw [e3]
  refine ⟨v, f, p, s1, s2, s3, t1, t2, t3, ?_, ?_, ?_⟩
  · simpa [spdlog_info, compile_trace, List.append_assoc] using hp
  · simpa [spdlog_info, compile_trace, List.append_assoc] using h3
  · simp [spdlog_info, List.append_assoc]

/-- The result of a load, with the answers of the driver named: the world it leaves,
where the reported link status comes from, and the current program of the driver
afterwards. -/
theorem load_shape (d : Driver) (fs : FileSystem) (self : ShaderPipeline) (vp fp : String)
    (w : World) :
    ∃ (v f p : GLuint) (s1 s2 s3 : Int) (t1 t2 t3 : String),
      load_in_shaders_from_file d fs self vp fp w =
        (⟨p⟩,
          ⟨w.calls ++
            (compile_trace GL_VERTEX_SHADER v (c_str (sources_after_try fs vp fp w).1.1) s1 t1 ++
              compile_trace GL_FRAGMENT_SHADER f (c_str (sources_after_try fs vp fp w).1.2)
                s2 t2 ++
              link_trace p v f s3 t3),
           w.log ++
            ([⟨Level.info,
                "loading in vertex shader: " ++ vp ++ " and fragment shader: " ++ fp⟩] ++
              (match read_sources fs vp fp with
                | Except.ok _ => []
                | Except.error e =>
                  [⟨Level.error,
                    "file not successfully read, either frag or vert shader has the error: "
                      ++ e⟩]) ++
              (if s1 = 0 then [⟨Level.error, "shader compilation failed: " ++ t1⟩] else []) ++
              (if s2 = 0 then [⟨Level.error, "shader compilation failed: " ++ t2⟩] else []) ++
              [if s3 = 0 then ⟨Level.error, "shader program linking failed " ++ t3⟩
              else ⟨Level.info, "shader program linking succeeded"⟩])⟩) ∧
      (∃ hist : List GLCall, s3 = d.programiv hist p GL_LINK_STATUS) ∧
      current_program d (load_in_shaders_from_file d fs self vp fp w).2.calls =
        (if s3 ≠ 0 ∨ p = 0 then p else current_program d w.calls) ∧
      p = d.createProgram
        (w.calls ++
          (compile_trace GL_VERTEX_SHADER v (c_str (sources_after_try fs vp fp w).1.1) s1 t1 ++
            compile_trace GL_FRAGMENT_SHADER f (c_str (sources_after_try fs vp fp w).1.2) s2
              t2)) := by
  obtain ⟨v, f, p, s1, s2, s3, t1, t2, t3, hp, h3, e⟩ := load_shape_aux d fs self vp fp w
  refine ⟨v, f, p, s1, s2, s3, t1, t2, t3, e, ⟨_, h3⟩, ?_, hp⟩
  rw [e]
  show current_program d (w.calls ++
    (compile_trace GL_VERTEX_SHADER v (c_str (sources_after_try fs vp fp w).1.1) s1 t1 ++
      compile_trace GL_FRAGMENT_SHADER f (c_str (sources_after_try fs vp fp w).1.2) s2 t2 ++
      link_trace p v f s3 t3)) = _
  rw [current_program_append, current_from_load, ← h3]

theorem load_new_calls (d : Driver) (fs : FileSystem) (self : ShaderPipeline)
    (vp fp : String) (w : World) (ext : List GLCall) (r : ShaderPipeline) (l : List LogEntry)
    (h : load_in_shaders_from_file d fs self vp fp w = (r, ⟨w.calls ++ ext, l⟩)) :
    new_calls w (load_in_shaders_from_file d fs self vp fp w).2 = ext := by
  rw [h]
  exact new_calls_append w _ _ rfl

theorem load_new_log (d : Driver) (fs : FileSystem) (self : ShaderPipeline)
    (vp fp : String) (w : World) (c : List GLCall) (r : ShaderPipeline) (ext : List LogEntry)
    (h : load_in_shaders_from_file d fs self vp fp w = (r, ⟨c, w.log ++ ext⟩)) :
    new_log w (load_in_shaders_from_file d fs self vp fp w).2 = ext := by
  rw [h]
  exact new_log_append w _ _ rfl

theorem c_str_of_no_nul (s : String) (h : Char.ofNat 0 ∉ s.data) : c_str s = s := by
  have e : (s.data.takeWhile fun c => c != Char.ofNat 0) = s.data := by
    rw [List.takeWhile_eq_self_iff]
    intro c hc
    simp only [bne_iff_ne, ne_eq]
    intro h0
    exact h (h0 ▸ hc)
  simp [c_str, e]

/-- C7 (as amended): when both files are read successfully, with contents sv and sf,
the calls made by load_in_shaders_from_file are, in this order: create a vertex-stage
shader v, submit to v the text of sv up to its first NUL character, compile v,
queries; create a fragment-stage shader f, submit to f the text of sf up to its first
NUL character, compile f, queries; create one program p, attach v, attach f, link,
queries, delete v, delete f, use p.  The vertex text goes only to the shader created
as vertex stage and the fragment text only to the one created as fragment stage, p
ends up in shader_program_id, and a text without NUL character is submitted whole. -/
theorem load_driver_steps_in_order (d : Driver) (fs : FileSystem) (self : ShaderPipeline)
    (vp fp : String) (w : World)
    (hv : (fs vp).ok = true) (hf : (fs fp).ok = true) :
    (∃ (v f p : GLuint) (q1 q2 q3 : List GLCall),
      q1.all GLCall.isQuery = true ∧ q2.all GLCall.isQuery = true ∧
      q3.all GLCall.isQuery = true ∧
      new_calls w (load_in_shaders_from_file d fs self vp fp w).2 =
        [GLCall.glCreateShader GL_VERTEX_SHADER v,
          GLCall.glShaderSource v (c_str (fs vp).text), GLCall.glCompileShader v] ++ q1 ++
        [GLCall.glCreateShader GL_FRAGMENT_SHADER f,
          GLCall.glShaderSource f (c_str (fs fp).text), GLCall.glCompileShader f] ++ q2 ++
        [GLCall.glCreateProgram p, GLCall.glAttachShader p v, GLCall.glAttachShader p f,
          GLCall.glLinkProgram p] ++ q3 ++
        [GLCall.glDeleteShader v, GLCall.glDeleteShader f, GLCall.glUseProgram p] ∧
      (load_in_shaders_from_file d fs self vp fp w).1.shader_program_id = p) ∧
    (Char.ofNat 0 ∉ (fs vp).text.data → c_str (fs vp).text = (fs vp).text) ∧
    (Char.ofNat 0 ∉ (fs fp).text.data → c_str (fs fp).text = (fs fp).text) := by
  refine ⟨?_, c_str_of_no_nul _, c_str_of_no_nul _⟩
  obtain ⟨v, f, p, s1, s2, s3, t1, t2, t3, e, -, -, -⟩ := load_shape d fs self vp fp w
  rw [sources_after_try_of_ok fs vp fp w hv hf] at e
  refine ⟨v, f, p,
    [GLCall.glGetShaderiv v GL_COMPILE_STATUS s1] ++
      (if s1 = 0 then [GLCall.glGetShaderInfoLog v 512 t1] else []),
    [GLCall.glGetShaderiv f GL_COMPILE_STATUS s2] ++
      (if s2 = 0 then [GLCall.glGetShaderInfoLog f 512 t2] else []),
    [GLCall.glGetProgramiv p GL_LINK_STATUS s3] ++
      (if s3 = 0 then [GLCall.glGetProgramInfoLog p 512 t3] else []), ?_, ?_, ?_, ?_, ?_⟩
  · by_cases h : s1 = 0 <;> simp [h, GLCall.isQuery]
  · by_cases h : s2 = 0 <;> simp [h, GLCall.isQuery]
  · by_cases h : s3 = 0 <;> simp [h, GLCall.isQuery]
  · rw [load_new_calls d fs self vp fp w _ _ _ e]
    simp [compile_trace, link_trace]
  · rw [e]

/-- Witness for C7 as amended: the two readable shader files of the small file system,
loaded through the driver that accepts everything. -/
theorem load_driver_steps_in_order_witness :
    (demo_fs "a.vert").ok = true ∧ (demo_fs "a.frag").ok = true ∧
    (∃ (v f p : GLuint) (q1 q2 q3 : List GLCall),
      q1.all GLCall.isQuery = true ∧ q2.all GLCall.isQuery = true ∧
      q3.all GLCall.isQuery = true ∧
      new_calls World.initial
          (load_in_shaders_from_file counting_driver demo_fs fresh "a.vert" "a.frag"
            World.initial).2 =
        [GLCall.glCreateShader GL_VERTEX_SHADER v,
          GLCall.glShaderSource v (c_str (demo_fs "a.vert").text),
          GLCall.glCompileShader v] ++ q1 ++
        [GLCall.glCreateShader GL_FRAGMENT_SHADER f,
          GLCall.glShaderSource f (c_str (demo_fs "a.frag").text),
          GLCall.glCompileShader f] ++ q2 ++
        [GLCall.glCreateProgram p, GLCall.glAttachShader p v, GLCall.glAttachShader p f,
          GLCall.glLinkProgram p] ++ q3 ++
        [GLCall.glDeleteShader v, GLCall.glDeleteShader f, GLCall.glUseProgram p] ∧
      (load_in_shaders_from_file counting_driver demo_fs fresh "a.vert" "a.frag"
        World.initial).1.shader_program_id = p) ∧
    (Char.ofNat 0 ∉ (demo_fs "a.vert").text.data →
      c_str (demo_fs "a.vert").text = (demo_fs "a.vert").text) ∧
    (Char.ofNat 0 ∉ (demo_fs "a.frag").text.data →
      c_str (demo_fs "a.frag").text = (demo_fs "a.frag").text) :=
  ⟨by decide, by decide,
    load_driver_steps_in_order counting_driver demo_fs fresh "a.vert" "a.frag" World.initial
      (by decide) (by decide)⟩

/-- C7 (as stated) fails: a vertex file that is read successfully and whose content has
a NUL character in the middle is not compiled as it stands.  The text submitted for
the vertex stage is the part before the NUL character, and the content of the file is
submitted to no shader. -/
theorem load_submits_text_before_nul :
    (demo_fs "nul.vert").ok = true ∧ (demo_fs "a.frag").ok = true ∧
    (demo_fs "nul.vert").text = "ab\x00cd" ∧
    submitted_sources
        (load_in_shaders_from_file counting_driver demo_fs fresh "nul.vert" "a.frag"
          World.initial).2.calls =
      [(1, "ab"), (2, "color = vec4(1.0);")] ∧
    GLCall.glShaderSource 1 (demo_fs "nul.vert").text ∉
      (load_in_shaders_from_file counting_driver demo_fs fresh "nul.vert" "a.frag"
        World.initial).2.calls := by
  decide

/-- The load makes exactly one create-program call; the handle it returned is stored
in shader_program_id and is the argument of the use-program request, which is the last
call of the load.  This holds for every file-system outcome and every answer of the
driver. -/
theorem load_creates_and_requests_program (d : Driver) (fs : FileSystem)
    (self : ShaderPipeline) (vp fp : String) (w : World) :
    created_programs (new_calls w (load_in_shaders_from_file d fs self vp fp w).2) =
      [(load_in_shaders_from_file d fs self vp fp w).1.shader_program_id] ∧
    (new_calls w (load_in_shaders_from_file d fs self vp fp w).2).getLast? =
      some (GLCall.glUseProgram
        (load_in_shaders_from_file d fs self vp fp w).1.shader_program_id) := by
  obtain ⟨v, f, p, s1, s2, s3, t1, t2, t3, e, -, -, -⟩ := load_shape d fs self vp fp w
  rw [load_new_calls d fs self vp fp w _ _ _ e, e]
  constructor <;>
    by_cases h1 : s1 = 0 <;> by_cases h2 : s2 = 0 <;> by_cases h3 : s3 = 0 <;>
      simp [created_programs, compile_trace, link_trace, h1, h2, h3]

/-- When every status query of a load was answered with success, the driver did not
report the name 0 as linked, so the stored handle is positive, the driver made the
program current, and the info entry about the link was written. -/
theorem load_success_facts (d : Driver) (fs : FileSystem) (self : ShaderPipeline)
    (vp fp : String) (w : World)
    (hs : reports_success (new_calls w (load_in_shaders_from_file d fs self vp fp w).2) = true)
    (hd : link_success_only_for_objects d) :
    0 < (load_in_shaders_from_file d fs self vp fp w).1.shader_program_id ∧
    current_program d (load_in_shaders_from_file d fs self vp fp w).2.calls =
      (load_in_shaders_from_file d fs self vp fp w).1.shader_program_id ∧
    (⟨Level.info, "shader program linking succeeded"⟩ : LogEntry) ∈
      new_log w (load_in_shaders_from_file d fs self vp fp w).2 := by
  obtain ⟨v, f, p, s1, s2, s3, t1, t2, t3, e, ⟨hist, h3⟩, hcur, -⟩ :=
    load_shape d fs self vp fp w
  rw [load_new_calls d fs self vp fp w _ _ _ e] at hs
  have hs3 : s3 ≠ 0 := by
    intro h
    by_cases h1 : s1 = 0 <;> by_cases h2 : s2 = 0 <;>
      simp [reports_success, GLCall.status, compile_trace, link_trace, h, h1, h2] at hs
  have hp : p ≠ 0 := hd hist p (h3 ▸ hs3)
  rw [hcur, load_new_log d fs self vp fp w _ _ _ e, e]
  refine ⟨Nat.pos_of_ne_zero hp, ?_, ?_⟩
  · simp [hs3]
  · simp [hs3]

/-- C8: for every call of load_in_shaders_from_file in which both files are read and
the driver reports success for both compiles and for the link, the member
shader_program_id afterwards is a positive identifier (the handle returned by the one
create-program call of the load), that program is the current program of the driver,
and the info entry "shader program linking succeeded" has been written.  The driver
is an OpenGL driver in this respect: it never reports link success for the name 0. -/
theorem load_success_positive_active_logged (d : Driver) (fs : FileSystem)
    (self : ShaderPipeline) (vp fp : String) (w : World)
    (hd : link_success_only_for_objects d)
    (_hv : (fs vp).ok = true) (_hf : (fs fp).ok = true)
    (hs : reports_success (new_calls w (load_in_shaders_from_file d fs self vp fp w).2)
      = true) :
    0 < (load_in_shaders_from_file d fs self vp fp w).1.shader_program_id ∧
    created_programs (new_calls w (load_in_shaders_from_file d fs self vp fp w).2) =
      [(load_in_shaders_from_file d fs self vp fp w).1.shader_program_id] ∧
    current_program d (load_in_shaders_from_file d fs self vp fp w).2.calls =
      (load_in_shaders_from_file d fs self vp fp w).1.shader_program_id ∧
    (⟨Level.info, "shader program linking succeeded"⟩ : LogEntry) ∈
      new_log w (load_in_shaders_from_file d fs self vp fp w).2 := by
  have h := load_success_facts d fs self vp fp w hs hd
  exact ⟨h.1, (load_creates_and_requests_program d fs self vp fp w).1, h.2.1, h.2.2⟩

theorem counting_driver_link_success : link_success_only_for_objects counting_driver := by
  intro hist p h
  simpa [counting_driver] using h

/-- Witness for C8: the two readable shader files of the small file system, loaded
through the driver that accepts everything and numbers its objects from 1. -/
theorem load_success_positive_active_logged_witness :
    link_success_only_for_objects counting_driver ∧
    (demo_fs "a.vert").ok = true ∧ (demo_fs "a.frag").ok = true ∧
    reports_success (new_calls World.initial
      (load_in_shaders_from_file counting_driver demo_fs fresh "a.vert" "a.frag"
        World.initial).2) = true ∧
    0 < (load_in_shaders_from_file counting_driver demo_fs fresh "a.vert" "a.frag"
      World.initial).1.shader_program_id ∧
    created_programs (new_calls World.initial
      (load_in_shaders_from_file counting_driver demo_fs fresh "a.vert" "a.frag"
        World.initial).2) =
      [(load_in_shaders_from_file counting_driver demo_fs fresh "a.vert" "a.frag"
        World.initial).1.shader_program_id] ∧
    current_program counting_driver
      (load_in_shaders_from_file counting_driver demo_fs fresh "a.vert" "a.frag"
        World.initial).2.calls =
      (load_in_shaders_from_file counting_driver demo_fs fresh "a.vert" "a.frag"
        World.initial).1.shader_program_id ∧
    (⟨Level.info, "shader program linking succeeded"⟩ : LogEntry) ∈
      new_log World.initial
        (load_in_shaders_from_file counting_driver demo_fs fresh "a.vert" "a.frag"
          World.initial).2 :=
  ⟨counting_driver_link_success, by decide, by decide, by decide,
    load_success_positive_active_logged counting_driver demo_fs fresh "a.vert" "a.frag"
      World.initial counting_driver_link_success (by decide) (by decide) (by decide)⟩

/-! ## Repeated loads and the program table -/

theorem mem_created_programs (calls : List GLCall) (p : GLuint) :
    p ∈ created_programs calls ↔ GLCall.glCreateProgram p ∈ calls := by
  unfold created_programs
  rw [List.mem_filterMap]
  constructor
  · rintro ⟨c, hc, h⟩
    cases c <;> simp at h
    subst h
    exact hc
  · intro h
    exact ⟨_, h, rfl⟩

theorem live_step_mem (live : List GLuint) (c : GLCall) (p : GLuint)
    (hc : c.isDeleteProgram = false) (hp : p ∈ live) : p ∈ live_step live c := by
  cases c <;> simp_all [live_step, GLCall.isDeleteProgram]

theorem foldl_live_step_mem (ext : List GLCall) :
    ∀ (live : List GLuint) (p : GLuint),
      (ext.all fun c => !c.isDeleteProgram) = true → p ∈ live →
      p ∈ ext.foldl live_step live := by
  induction ext with
  | nil => intro live p _ hp; exact hp
  | cons c rest ih =>
    intro live p hext hp
    simp only [List.all_cons, Bool.and_eq_true, Bool.not_eq_true'] at hext
    exact ih _ p hext.2 (live_step_mem live c p hext.1 hp)

theorem foldl_live_step_created (ext : List GLCall) :
    ∀ (live : List GLuint) (p : GLuint),
      (ext.all fun c => !c.isDeleteProgram) = true → GLCall.glCreateProgram p ∈ ext →
      p ∈ ext.foldl live_step live := by
  induction ext with
  | nil => intro live p _ hp; simp at hp
  | cons c rest ih =>
    intro live p hext hp
    simp only [List.all_cons, Bool.and_eq_true, Bool.not_eq_true'] at hext
    rcases List.mem_cons.1 hp with h | h
    · subst h
      exact foldl_live_step_mem rest _ p hext.2 (by simp [live_step])
    · exact ih _ p hext.2 h

theorem mem_foldl_live_step (ext : List GLCall) :
    ∀ (live : List GLuint) (p : GLuint),
      p ∈ ext.foldl live_step live → p ∈ live ∨ GLCall.glCreateProgram p ∈ ext := by
  induction ext with
  | nil => intro live p h; exact Or.inl h
  | cons c rest ih =>
    intro live p h
    rcases ih _ p h with h1 | h1
    · cases c <;> simp_all [live_step]
      tauto
    · exact Or.inr (List.mem_cons_of_mem _ h1)

theorem le_foldr_max (l : List Nat) (x : Nat) (h : x ∈ l) : x ≤ l.foldr max 0 := by
  induction l with
  | nil => simp at h
  | cons y rest ih =>
    rcases List.mem_cons.1 h with h1 | h1
    · subst h1
      exact Nat.le_max_left _ _
    · exact Nat.le_trans (ih h1) (Nat.le_max_right _ _)

theorem counting_driver_fresh : create_program_fresh counting_driver := by
  intro hist
  right
  intro hmem
  have hc : GLCall.glCreateProgram (next_handle hist) ∈ hist := by
    rcases mem_foldl_live_step hist [] _ hmem with h | h
    · simp at h
    · exact h
  have hi : next_handle hist ∈ issued_handles hist := by
    unfold issued_handles
    rw [List.mem_filterMap]
    exact ⟨_, hc, rfl⟩
  have hle := le_foldr_max _ _ hi
  unfold next_handle at hle
  omega

theorem compile_trace_no_delete (ty : GLenum) (h : GLuint) (src : String) (s : Int)
    (txt : String) :
    ((compile_trace ty h src s txt).all fun c => !c.isDeleteProgram) = true := by
  by_cases hs : s = 0 <;> simp [compile_trace, GLCall.isDeleteProgram, hs]

theorem link_trace_no_delete (p v f : GLuint) (s : Int) (txt : String) :
    ((link_trace p v f s txt).all fun c => !c.isDeleteProgram) = true := by
  by_cases hs : s = 0 <;> simp [link_trace, GLCall.isDeleteProgram, hs]

/-- The calls of a load extend the history, and none of them is a delete-program
request. -/
theorem load_calls_extend (d : Driver) (fs : FileSystem) (self : ShaderPipeline)
    (vp fp : String) (w : World) :
    (load_in_shaders_from_file d fs self vp fp w).2.calls =
      w.calls ++ new_calls w (load_in_shaders_from_file d fs self vp fp w).2 ∧
    ((new_calls w (load_in_shaders_from_file d fs self vp fp w).2).all
      fun c => !c.isDeleteProgram) = true := by
  obtain ⟨v, f, p, s1, s2, s3, t1, t2, t3, e, -, -, -⟩ := load_shape d fs self vp fp w
  rw [load_new_calls d fs self vp fp w _ _ _ e, e]
  refine ⟨rfl, ?_⟩
  rw [List.all_append, List.all_append, compile_trace_no_delete, compile_trace_no_delete,
    link_trace_no_delete]
  rfl

/-- The program stored by a load is allocated in the driver after the load. -/
theorem load_program_live (d : Driver) (fs : FileSystem) (self : ShaderPipeline)
    (vp fp : String) (w : World) :
    (load_in_shaders_from_file d fs self vp fp w).1.shader_program_id ∈
      live_programs (load_in_shaders_from_file d fs self vp fp w).2.calls := by
  have a := load_creates_and_requests_program d fs self vp fp w
  have b := load_calls_extend d fs self vp fp w
  rw [b.1]
  unfold live_programs
  rw [List.foldl_append]
  apply foldl_live_step_created _ _ _ b.2
  rw [← mem_created_programs, a.1]
  simp

/-- On a driver that follows the two OpenGL rules, the program stored by a load whose
status queries all report success is none of the programs allocated before the
load. -/
theorem load_program_new (d : Driver) (fs : FileSystem) (self : ShaderPipeline)
    (vp fp : String) (w : World)
    (hd : link_success_only_for_objects d) (hf : create_program_fresh d)
    (hs : reports_success (new_calls w (load_in_shaders_from_file d fs self vp fp w).2) = true)
    (q : GLuint) (hq : q ∈ live_programs w.calls) :
    (load_in_shaders_from_file d fs self vp fp w).1.shader_program_id ≠ q := by
  have h0 := (load_success_facts d fs self vp fp w hs hd).1
  obtain ⟨v, f, p, s1, s2, s3, t1, t2, t3, e, -, -, hp⟩ := load_shape d fs self vp fp w
  rw [e] at h0 ⊢
  simp only at h0 ⊢
  intro hpq
  subst hpq
  rcases hf (w.calls ++
      (compile_trace GL_VERTEX_SHADER v (c_str (sources_after_try fs vp fp w).1.1) s1 t1 ++
        compile_trace GL_FRAGMENT_SHADER f (c_str (sources_after_try fs vp fp w).1.2) s2 t2))
    with h | h
  · rw [← hp] at h
    exact absurd h (Nat.pos_iff_ne_zero.1 h0)
  · rw [← hp] at h
    apply h
    unfold live_programs
    rw [List.foldl_append]
    apply foldl_live_step_mem _ _ _ _ hq
    rw [List.all_append, compile_trace_no_delete, compile_trace_no_delete]
    rfl

/-- C9 (as amended): for every instance and every two consecutive calls of
load_in_shaders_from_file on it, the second with valid sources (every status query of
the second load reports success), on a driver that follows the OpenGL rules for
program names: the second call replaces shader_program_id with a new valid program
handle, namely the non-zero handle returned by the one create-program call made
during the second call; it differs from the old handle; the current program of the
driver afterwards is that new handle and not the old one.  The old program handle
however is leaked: neither load issues a delete-program request, so the handle
stored by the first load is still allocated in the driver after the second load
although the instance no longer holds it. -/
theorem second_load_replaces_and_keeps_old_program (d : Driver) (fs1 fs2 : FileSystem)
    (self : ShaderPipeline) (vp1 fp1 vp2 fp2 : String) (w : World)
    (hd : link_success_only_for_objects d) (hf : create_program_fresh d)
    (hs : reports_success
      (new_calls (load_in_shaders_from_file d fs1 self vp1 fp1 w).2
        (load_in_shaders_from_file d fs2 (load_in_shaders_from_file d fs1 self vp1 fp1 w).1
          vp2 fp2 (load_in_shaders_from_file d fs1 self vp1 fp1 w).2).2) = true) :
    created_programs
        (new_calls (load_in_shaders_from_file d fs1 self vp1 fp1 w).2
          (load_in_shaders_from_file d fs2 (load_in_shaders_from_file d fs1 self vp1 fp1 w).1
            vp2 fp2 (load_in_shaders_from_file d fs1 self vp1 fp1 w).2).2) =
      [(load_in_shaders_from_file d fs2 (load_in_shaders_from_file d fs1 self vp1 fp1 w).1
          vp2 fp2 (load_in_shaders_from_file d fs1 self vp1 fp1 w).2).1.shader_program_id] ∧
    0 < (load_in_shaders_from_file d fs2 (load_in_shaders_from_file d fs1 self vp1 fp1 w).1
        vp2 fp2 (load_in_shaders_from_file d fs1 self vp1 fp1 w).2).1.shader_program_id ∧
    (load_in_shaders_from_file d fs2 (load_in_shaders_from_file d fs1 self vp1 fp1 w).1
        vp2 fp2 (load_in_shaders_from_file d fs1 self vp1 fp1 w).2).1.shader_program_id ≠
      (load_in_shaders_from_file d fs1 self vp1 fp1 w).1.shader_program_id ∧
    current_program d
        (load_in_shaders_from_file d fs2 (load_in_shaders_from_file d fs1 self vp1 fp1 w).1
          vp2 fp2 (load_in_shaders_from_file d fs1 self vp1 fp1 w).2).2.calls =
      (load_in_shaders_from_file d fs2 (load_in_shaders_from_file d fs1 self vp1 fp1 w).1
        vp2 fp2 (load_in_shaders_from_file d fs1 self vp1 fp1 w).2).1.shader_program_id ∧
    ((new_calls w
        (load_in_shaders_from_file d fs2 (load_in_shaders_from_file d fs1 self vp1 fp1 w).1
          vp2 fp2 (load_in_shaders_from_file d fs1 self vp1 fp1 w).2).2).all
      fun c => !c.isDeleteProgram) = true ∧
    (load_in_shaders_from_file d fs1 self vp1 fp1 w).1.shader_program_id ∈
      live_programs
        (load_in_shaders_from_file d fs2 (load_in_shaders_from_file d fs1 self vp1 fp1 w).1
          vp2 fp2 (load_in_shaders_from_file d fs1 self vp1 fp1 w).2).2.calls := by
  have l1 := load_program_live d fs1 self vp1 fp1 w
  have b1 := load_calls_extend d fs1 self vp1 fp1 w
  have a2 := load_creates_and_requests_program d fs2
    (load_in_shaders_from_file d fs1 self vp1 fp1 w).1 vp2 fp2
    (load_in_shaders_from_file d fs1 self vp1 fp1 w).2
  have b2 := load_calls_extend d fs2
    (load_in_shaders_from_file d fs1 self vp1 fp1 w).1 vp2 fp2
    (load_in_shaders_from_file d fs1 self vp1 fp1 w).2
  have c2 := load_success_facts d fs2
    (load_in_shaders_from_file d fs1 self vp1 fp1 w).1 vp2 fp2
    (load_in_shaders_from_file d fs1 self vp1 fp1 w).2 hs hd
  have n2 := load_program_new d fs2
    (load_in_shaders_from_file d fs1 self vp1 fp1 w).1 vp2 fp2
    (load_in_shaders_from_file d fs1 self vp1 fp1 w).2 hd hf hs _ l1
  refine ⟨a2.1, c2.1, n2, c2.2.1, ?_, ?_⟩
  · have hc : new_calls w
        (load_in_shaders_from_file d fs2 (load_in_shaders_from_file d fs1 self vp1 fp1 w).1
          vp2 fp2 (load_in_shaders_from_file d fs1 self vp1 fp1 w).2).2 =
        new_calls w (load_in_shaders_from_file d fs1 self vp1 fp1 w).2 ++
          new_calls (load_in_shaders_from_file d fs1 self vp1 fp1 w).2
            (load_in_shaders_from_file d fs2 (load_in_shaders_from_file d fs1 self vp1 fp1 w).1
              vp2 fp2 (load_in_shaders_from_file d fs1 self vp1 fp1 w).2).2 := by
      apply new_calls_append
      rw [b2.1, b1.1, List.append_assoc]
    rw [hc, List.all_append, b1.2, b2.2]
    rfl
  · rw [b2.1]
    unfold live_programs
    rw [List.foldl_append]
    exact foldl_live_step_mem _ _ _ b2.2 l1

/-- Witness for C9 as amended: two pairs of valid shader files of the small file
system, loaded one after the other on the same instance through the driver that
accepts everything and numbers its objects from 1. -/
theorem second_load_replaces_and_keeps_old_program_witness :
    link_success_only_for_objects counting_driver ∧ create_program_fresh counting_driver ∧
    reports_success
      (new_calls
        (load_in_shaders_from_file counting_driver demo_fs fresh "a.vert" "a.frag"
          World.initial).2
        (load_in_shaders_from_file counting_driver demo_fs
          (load_in_shaders_from_file counting_driver demo_fs fresh "a.vert" "a.frag"
          World.initial).1 "b.vert" "b.frag"
          (load_in_shaders_from_file counting_driver demo_fs fresh "a.vert" "a.frag"
          World.initial).2).2) = true ∧
    created_programs
        (new_calls
          (load_in_shaders_from_file counting_driver demo_fs fresh "a.vert" "a.frag"
          World.initial).2
          (load_in_shaders_from_file counting_driver demo_fs
          (load_in_shaders_from_file counting_driver demo_fs fresh "a.vert" "a.frag"
          World.initial).1 "b.vert" "b.frag"
          (load_in_shaders_from_file counting_driver demo_fs fresh "a.vert" "a.frag"
          World.initial).2).2) =
      [(load_in_shaders_from_file counting_driver demo_fs
          (load_in_shaders_from_file counting_driver demo_fs fresh "a.vert" "a.frag"
          World.initial).1 "b.vert" "b.frag"
          (load_in_shaders_from_file counting_driver demo_fs fresh "a.vert" "a.frag"
          World.initial).2).1.shader_program_id] ∧
    0 < (load_in_shaders_from_file counting_driver demo_fs
          (load_in_shaders_from_file counting_driver demo_fs fresh "a.vert" "a.frag"
          World.initial).1 "b.vert" "b.frag"
          (load_in_shaders_from_file counting_driver demo_fs fresh "a.vert" "a.frag"
          World.initial).2).1.shader_program_id ∧
    (load_in_shaders_from_file counting_driver demo_fs
          (load_in_shaders_from_file counting_driver demo_fs fresh "a.vert" "a.frag"
          World.initial).1 "b.vert" "b.frag"
          (load_in_shaders_from_file counting_driver demo_fs fresh "a.vert" "a.frag"
          World.initial).2).1.shader_program_id ≠
      (load_in_shaders_from_file counting_driver demo_fs fresh "a.vert" "a.frag"
          World.initial).1.shader_program_id ∧
    current_program counting_driver
        (load_in_shaders_from_file counting_driver demo_fs
          (load_in_shaders_from_file counting_driver demo_fs fresh "a.vert" "a.frag"
          World.initial).1 "b.vert" "b.frag"
          (load_in_shaders_from_file counting_driver demo_fs fresh "a.vert" "a.frag"
          World.initial).2).2.calls =
      (load_in_shaders_from_file counting_driver demo_fs
          (load_in_shaders_from_file counting_driver demo_fs fresh "a.vert" "a.frag"
          World.initial).1 "b.vert" "b.frag"
          (load_in_shaders_from_file counting_driver demo_fs fresh "a.vert" "a.frag"
          World.initial).2).1.shader_program_id ∧
    ((new_calls World.initial
        (load_in_shaders_from_file counting_driver demo_fs
          (load_in_shaders_from_file counting_driver demo_fs fresh "a.vert" "a.frag"
          World.initial).1 "b.vert" "b.frag"
          (load_in_shaders_from_file counting_driver demo_fs fresh "a.vert" "a.frag"
          World.initial).2).2).all
      fun c => !c.isDeleteProgram) = true ∧
    (load_in_shaders_from_file counting_driver demo_fs fresh "a.vert" "a.frag"
          World.initial).1.shader_program_id ∈
      live_programs
        (load_in_shaders_from_file counting_driver demo_fs
          (load_in_shaders_from_file counting_driver demo_fs fresh "a.vert" "a.frag"
          World.initial).1 "b.vert" "b.frag"
          (load_in_shaders_from_file counting_driver demo_fs fresh "a.vert" "a.frag"
          World.initial).2).2.calls :=
  ⟨counting_driver_link_success, counting_driver_fresh, by decide,
    second_load_replaces_and_keeps_old_program counting_driver demo_fs demo_fs fresh
      "a.vert" "a.frag" "b.vert" "b.frag" World.initial counting_driver_link_success
      counting_driver_fresh (by decide)⟩

/-- C9 (as stated) fails: with the driver that numbers its objects from 1, loading
one pair of valid shader files and then another pair on the same instance leaves the
first program handle (3) allocated in the driver: the instance now holds the second
handle (6), no delete-program request for 3 was made, and 3 is still in the program
table.  The old handle is leaked. -/
theorem second_load_leaks_old_program :
    (load_in_shaders_from_file counting_driver demo_fs fresh "a.vert" "a.frag"
      World.initial).1.shader_program_id = 3 ∧
    (load_in_shaders_from_file counting_driver demo_fs
      (load_in_shaders_from_file counting_driver demo_fs fresh "a.vert" "a.frag"
        World.initial).1 "b.vert" "b.frag"
      (load_in_shaders_from_file counting_driver demo_fs fresh "a.vert" "a.frag"
        World.initial).2).1.shader_program_id = 6 ∧
    GLCall.glDeleteProgram 3 ∉
      (load_in_shaders_from_file counting_driver demo_fs
        (load_in_shaders_from_file counting_driver demo_fs fresh "a.vert" "a.frag"
          World.initial).1 "b.vert" "b.frag"
        (load_in_shaders_from_file counting_driver demo_fs fresh "a.vert" "a.frag"
          World.initial).2).2.calls ∧
    live_programs
      (load_in_shaders_from_file counting_driver demo_fs
        (load_in_shaders_from_file counting_driver demo_fs fresh "a.vert" "a.frag"
          World.initial).1 "b.vert" "b.frag"
        (load_in_shaders_from_file counting_driver demo_fs fresh "a.vert" "a.frag"
          World.initial).2).2.calls = [3, 6] := by
  decide

/-! ## File failures -/

/-- The `try` block raises exactly when one of the two `open` calls or one of the two
`close` calls fails (the fragment file is touched only after the vertex file
opened); a read error while copying does not raise. -/
theorem read_sources_raises_iff (fs : FileSystem) (vp fp : String) :
    (∃ e, read_sources fs vp fp = Except.error e) ↔
      ((fs vp).opens = false ∨ (fs fp).opens = false ∨ (fs vp).closes = false ∨
        (fs fp).closes = false) := by
  unfold read_sources
  cases h1 : (fs vp).opens <;> cases h2 : (fs fp).opens <;> cases h3 : (fs vp).closes <;>
    cases h4 : (fs fp).closes <;> simp [h1, h2, h3, h4]

/-- When the `try` block raises, both source strings stay empty and exactly one entry
is written: the error-level entry carrying the system error description. -/
theorem sources_after_try_of_raise (fs : FileSystem) (vp fp : String) (w : World) (e : String)
    (h : read_sources fs vp fp = Except.error e) :
    sources_after_try fs vp fp w =
      (("", ""), ⟨w.calls, w.log ++ [⟨Level.error,
        "file not successfully read, either frag or vert shader has the error: " ++ e⟩]⟩) := by
  simp [sources_after_try, h, spdlog_error]

/-- When the `try` block does not raise, each source string is the text copied from
its file and nothing is written to the log, whether or not the copies were cut short
by a read error. -/
theorem sources_after_try_of_no_raise (fs : FileSystem) (vp fp : String) (w : World)
    (h : (fs vp).opens = true ∧ (fs fp).opens = true ∧ (fs vp).closes = true ∧
      (fs fp).closes = true) :
    sources_after_try fs vp fp w = (((fs vp).text, (fs fp).text), w) := by
  simp [sources_after_try, read_sources, h.1, h.2.1, h.2.2.1, h.2.2.2]

/-- When the `try` block raises, the load still runs to its end: it writes the file
error entry right after its first info entry, submits the empty text for both
stages, and stores the handle of the one program it creates and requests its use. -/
theorem load_continues_after_raise (d : Driver) (fs : FileSystem) (self : ShaderPipeline)
    (vp fp : String) (w : World) (e : String)
    (h : read_sources fs vp fp = Except.error e) :
    (∃ rest : List LogEntry,
      new_log w (load_in_shaders_from_file d fs self vp fp w).2 =
        [⟨Level.info, "loading in vertex shader: " ++ vp ++ " and fragment shader: " ++ fp⟩,
          ⟨Level.error,
            "file not successfully read, either frag or vert shader has the error: " ++ e⟩] ++
          rest) ∧
    (submitted_sources (new_calls w (load_in_shaders_from_file d fs self vp fp w).2)).map
      Prod.snd = ["", ""] ∧
    created_programs (new_calls w (load_in_shaders_from_file d fs self vp fp w).2) =
      [(load_in_shaders_from_file d fs self vp fp w).1.shader_program_id] ∧
    (new_calls w (load_in_shaders_from_file d fs self vp fp w).2).getLast? =
      some (GLCall.glUseProgram
        (load_in_shaders_from_file d fs self vp fp w).1.shader_program_id) := by
  have hu := load_creates_and_requests_program d fs self vp fp w
  have he : c_str "" = "" := by decide
  obtain ⟨v, f, p, s1, s2, s3, t1, t2, t3, e1, -, -, -⟩ := load_shape d fs self vp fp w
  rw [sources_after_try_of_raise fs vp fp w e h, h] at e1
  simp only at e1
  refine ⟨⟨(if s1 = 0 then [⟨Level.error, "shader compilation failed: " ++ t1⟩] else []) ++
      (if s2 = 0 then [⟨Level.error, "shader compilation failed: " ++ t2⟩] else []) ++
      [if s3 = 0 then ⟨Level.error, "shader program linking failed " ++ t3⟩
        else ⟨Level.info, "shader program linking succeeded"⟩], ?_⟩, ?_, hu.1, hu.2⟩
  · rw [load_new_log d fs self vp fp w _ _ _ e1]
    simp
  · rw [load_new_calls d fs self vp fp w _ _ _ e1]
    by_cases h1 : s1 = 0 <;> by_cases h2 : s2 = 0 <;> by_cases h3 : s3 = 0 <;>
      simp [submitted_sources, compile_trace, link_trace, he, h1, h2, h3]

/-- C4, evaluated at a vertex path that names a directory: the path opens, the read
fails at once, nothing is raised.  The load returns, but its log holds no error-level
entry at all: only the first info entry and the entry of the link.  The read failure
is not reported. -/
theorem load_directory_writes_no_file_error :
    (demo_fs "shaders").ok = false ∧ (demo_fs "shaders").read_ok = false ∧
    (load_in_shaders_from_file counting_driver demo_fs fresh "shaders" "a.frag"
      World.initial).2.log =
      [⟨Level.info, "loading in vertex shader: shaders and fragment shader: a.frag"⟩,
        ⟨Level.info, "shader program linking succeeded"⟩] := by
  decide

/-- C10, evaluated at two inputs where reading the vertex file fails while the
fragment file is read in full.  With a vertex path that names a directory the
sources submitted for compilation are the empty text and the whole fragment text;
with a vertex file whose read breaks off, they are the characters copied so far and
the whole fragment text.  In both cases the fragment source is not empty although
reading one of the files failed. -/
theorem load_submits_sources_after_read_error :
    (demo_fs "shaders").ok = false ∧
    submitted_sources
        (load_in_shaders_from_file counting_driver demo_fs fresh "shaders" "a.frag"
          World.initial).2.calls =
      [(1, ""), (2, "color = vec4(1.0);")] ∧
    (demo_fs "bad.vert").ok = false ∧
    submitted_sources
        (load_in_shaders_from_file counting_driver demo_fs fresh "bad.vert" "a.frag"
          World.initial).2.calls =
      [(1, "gl_Position = "), (2, "color = vec4(1.0);")] := by
  decide

/-! ## Activation -/

